import Mathlib

/-!
# Verification of the `SubtitleProject` checkpoint-orchestration core

A shallow embedding of `PySubtitle/SubtitleProject.py` (gpt-subtrans):
mode-flag resolution in the constructor, the project-file write/read/backup
protocol, settings updates, and the translation-orchestration entry points
with their translator-event subscriptions.

Python object state is passed explicitly as a `ProjectState`; the on-disk
project file is a finite map `FS` from paths to decoded contents (the JSON
encoding via `SubtitleEncoder`/`SubtitleDecoder` is external to the core, so
the file system stores the decoded content object directly); observable
side effects (file opens/writes, translated-output saves, event forwarding)
are collected in an effect trace; a raised Python exception is an
`Option PyError` result component, with the (possibly mutated) object state
still returned, as in Python.

Collaborator methods that live outside this repository
(`SubtitleFile.UpdateProjectSettings`, `UpdateOutputPath`, `Sanitise`,
`GetScene`, the source loader and `Helpers.GetOutputPath`) are modelled from
the spec and marked as such in their doc comments.
-/

/-- A raised Python exception, by kind. `translationAborted` models
`TranslationAbortedError`, which the orchestrator handles separately. -/
inductive PyError where
  | exception (msg : String)
  | valueError (msg : String)
  | translationAborted
deriving DecidableEq, Repr

/-- Observable side effects of the core, in program order. `fileOpen`/
`fileWrite` are the project-file `open(...,'w')` and `f.write(...)`;
`saveTranslation` is a `SaveTranslation` (translated-output) save;
the `forward*` effects are events re-raised on the project event bus. -/
inductive Effect where
  | fileOpen (path : String)
  | fileWrite (path : String)
  | saveTranslation
  | forwardPreprocessed
  | forwardBatchTranslated
  | forwardSceneTranslated
deriving DecidableEq, Repr

/- ## Path helpers (`os.path.normpath`, `os.path.splitext`, POSIX rules) -/

/-- Split a character list at every `'/'` (like `str.split('/')`). -/
def splitOnSlash : List Char → List (List Char)
  | [] => [[]]
  | c :: cs =>
    let rest := splitOnSlash cs
    if c = '/' then [] :: rest
    else
      match rest with
      | [] => [[c]]
      | r :: rs => (c :: r) :: rs

/-- Join path components with `'/'` (like `'/'.join(...)`). -/
def joinWithSlash : List (List Char) → List Char
  | [] => []
  | [x] => x
  | x :: xs => x ++ '/' :: joinWithSlash xs

/-- Index of the last occurrence of `c`, or `-1` when absent
(like `str.rfind`). -/
def lastIndexOfAux : List Char → Char → Int → Int → Int
  | [], _, _, best => best
  | x :: xs, c, i, best => lastIndexOfAux xs c (i + 1) (if x = c then i else best)

def lastIndexOf (cs : List Char) (c : Char) : Int :=
  lastIndexOfAux cs c 0 (-1)

/-- Model of `os.path.normpath` for POSIX paths, following CPython `posixpath.normpath`:
drop empty and `'.'` components, resolve `'..'` against the stack, and
preserve the leading-slash count (two slashes stay two, otherwise one). -/
def normpath (p : String) : String :=
  if p = "" then "."
  else
    let cs := p.toList
    let initialSlashes : Nat :=
      if cs.take 1 = ['/'] then
        if cs.take 2 = ['/', '/'] && !(cs.take 3 = ['/', '/', '/']) then 2 else 1
      else 0
    let comps := splitOnSlash cs
    let newComps := comps.foldl
      (fun acc comp =>
        if comp = [] || comp = ['.'] then acc
        else if !(comp = ['.', '.'])
            || (initialSlashes = 0 && acc = [])
            || (!(acc = []) && acc.getLast? = some ['.', '.']) then acc ++ [comp]
        else if !(acc = []) then acc.dropLast
        else acc) []
    let path := List.replicate initialSlashes '/' ++ joinWithSlash newComps
    if path = [] then "." else String.mk path

/-- Model of `os.path.splitext` for POSIX paths, following CPython
`genericpath._splitext`: split at the last dot after the last slash, unless
every character between them is a dot (leading dots of the basename never
begin an extension). -/
def splitext (p : String) : String × String :=
  let cs := p.toList
  let sepIndex := lastIndexOf cs '/'
  let dotIndex := lastIndexOf cs '.'
  if sepIndex < dotIndex then
    let filenameIndex := (sepIndex + 1).toNat
    let dotNat := dotIndex.toNat
    if ((cs.drop filenameIndex).take (dotNat - filenameIndex)).all (· = '.') then (p, "")
    else (String.mk (cs.take dotNat), String.mk (cs.drop dotNat))
  else (p, "")

/- ## Mode resolution (`SubtitleProject.__init__`, lines 27-42) -/

/-- The eight run-mode flags derived in the constructor. -/
structure ModeFlags where
  read_project : Bool
  write_project : Bool
  update_project : Bool
  load_subtitles : Bool
  preview : Bool
  resume : Bool
  reparse : Bool
  retranslate : Bool
deriving DecidableEq, Repr

/-- Python `str.lower`, character by character (`String.toLower` restated over the
character list so that it evaluates by kernel reduction). -/
def strLower (s : String) : String :=
  String.mk (s.toList.map Char.toLower)

/-- Lines 27-29: `project_mode = options.get('project', '')` followed by
`if project_mode: project_mode = project_mode.lower()`. A `none` input
models `options.get` returning a stored `None`; the empty string is falsy,
so it is not lowered (a no-op anyway). -/
def lowerProjectMode (project_mode : Option String) : Option String :=
  match project_mode with
  | none => none
  | some s => if s = "" then some s else some (strLower s)

/-- Python `project_mode in [...]` where `project_mode` may be `None`
(`None in [strings]` is `False`). -/
def pmIn (pm : Option String) (l : List String) : Bool :=
  match pm with
  | none => false
  | some s => l.contains s

/-- Lines 31-39 of the constructor: the flag derivation from the mode
string. Note line 34 tests `project_mode is None`, not the empty string. -/
def resolveMode (project : Option String) : ModeFlags :=
  let pm := lowerProjectMode project
  let read_project := pmIn pm ["true", "read", "resume", "retranslate", "reparse"]
  let write_project := pmIn pm ["true", "write", "preview", "resume", "retranslate", "reparse"]
  let update_project := write_project && !(pmIn pm ["reparse"])
  let load_subtitles := pm.isNone || pmIn pm ["true", "write", "reload", "preview"]
  { read_project := read_project
    write_project := write_project
    update_project := update_project
    load_subtitles := load_subtitles
    preview := pmIn pm ["preview"]
    resume := pmIn pm ["resume"]
    reparse := pmIn pm ["reparse"]
    retranslate := pmIn pm ["retranslate"] }

/-- The all-false flag record, what unrecognized mode strings resolve to. -/
def allFalseFlags : ModeFlags :=
  { read_project := false, write_project := false, update_project := false
    load_subtitles := false, preview := false, resume := false
    reparse := false, retranslate := false }

/-- The recognized (lowered) mode strings of the constructor. -/
def recognizedModes : List String :=
  ["true", "read", "write", "reload", "resume", "retranslate", "reparse", "preview"]

lemma resolveMode_of_unrecognized (s : String)
    (h : recognizedModes.contains (if s = "" then s else strLower s) = false) :
    resolveMode (some s) = allFalseFlags := by
  rw [Bool.eq_false_iff, Ne, List.elem_iff] at h
  simp only [recognizedModes, List.mem_cons, List.not_mem_nil, or_false, not_or] at h
  unfold resolveMode lowerProjectMode allFalseFlags
  by_cases hs : s = "" <;>
    simp_all [pmIn, List.contains, List.elem_iff, hs]

/-- C1 counterexample: the claim as stated is false at two concrete mode
strings. For the empty string it asserts `load-source = true`, but the
resolver yields `false` (the `is None` guard on line 34 never matches the
empty string); for `"preview"` it asserts `load-source = false`, but
`"preview"` is in the load list on line 34, so the resolver yields `true`. -/
theorem C1_counterexample :
    (resolveMode (some "")).load_subtitles = false ∧
    (resolveMode (some "preview")).load_subtitles = true := by
  decide

/-- C1 (amended): the flag table actually implemented by the constructor,
matching case-insensitively: "true" yields read, write, update, load-source;
"write" yields write, update, load-source; "read" yields read only;
"reload" yields load-source only; "resume" yields read, write, update,
resume; "retranslate" yields read, write, update, retranslate; "reparse"
yields read, write, reparse with update = false; "preview" yields write,
update, preview and load-source = true; the empty string and every
unrecognized string yield all-false flags. -/
theorem C1_mode_resolver_table :
    (∀ s : String,
      recognizedModes.contains (if s = "" then s else strLower s) = false →
      resolveMode (some s) = allFalseFlags) ∧
    resolveMode (some "") = allFalseFlags ∧
    resolveMode (some "true") =
      { allFalseFlags with read_project := true, write_project := true,
                           update_project := true, load_subtitles := true } ∧
    resolveMode (some "write") =
      { allFalseFlags with write_project := true, update_project := true,
                           load_subtitles := true } ∧
    resolveMode (some "read") = { allFalseFlags with read_project := true } ∧
    resolveMode (some "reload") = { allFalseFlags with load_subtitles := true } ∧
    resolveMode (some "resume") =
      { allFalseFlags with read_project := true, write_project := true,
                           update_project := true, resume := true } ∧
    resolveMode (some "retranslate") =
      { allFalseFlags with read_project := true, write_project := true,
                           update_project := true, retranslate := true } ∧
    resolveMode (some "reparse") =
      { allFalseFlags with read_project := true, write_project := true,
                           reparse := true } ∧
    resolveMode (some "preview") =
      { allFalseFlags with write_project := true, update_project := true,
                           load_subtitles := true, preview := true } ∧
    resolveMode (some "TRUE") = resolveMode (some "true") ∧
    resolveMode (some "Preview") = resolveMode (some "preview") := by
  refine ⟨resolveMode_of_unrecognized, ?_⟩
  decide

/-- Witness for the quantified conjunct of `C1_mode_resolver_table` at the
concrete unrecognized mode string "bogus". -/
theorem C1_mode_resolver_table_witness :
    recognizedModes.contains "bogus" = false ∧
    resolveMode (some "bogus") = allFalseFlags :=
  ⟨by decide, C1_mode_resolver_table.1 "bogus" (by decide)⟩

/- ## Data model: content, project state, file system -/

/-- The subtitle/translation content object (`SubtitleFile`, an external
collaborator). `is_subtitle_file` models the `isinstance(..., SubtitleFile)`
check; `scenes` is the scene list (scenes identified by their number);
`has_subtitles` is the external has-content predicate used by
`InitialiseProject`. -/
structure ProjectContent where
  is_subtitle_file : Bool
  scenes : List Nat
  settings : List (String × String)
  outputpath : Option String
  target_language : Option String
  has_subtitles : Bool
deriving DecidableEq, Repr

/-- The on-disk store: project-file paths mapped to their decoded contents.
Serialisation is external, so a write stores the content object itself. -/
abbrev FS := List (String × ProjectContent)

/-- Look a path up in the store (`os.path.exists` / `open(path, 'r')`). -/
def fsFind (fs : FS) (path : String) : Option ProjectContent :=
  (fs.find? (fun e => e.1 == path)).map (fun e => e.2)

/-- Replace-or-append a file (`open(path, 'w')` then a full write). -/
def fsWrite (fs : FS) (path : String) (c : ProjectContent) : FS :=
  if (fs.find? (fun e => e.1 == path)).isSome then
    fs.map (fun e => if e.1 == path then (path, c) else e)
  else fs ++ [(path, c)]

/-- The mutable state of a `SubtitleProject` instance. `stop_event` and
`periodic_update_thread` model the autosave cancellation signal and the
background thread handle: `none` means the attribute is `None` or was never
created, i.e. the autosave scheduler is Idle. -/
structure ProjectState where
  subtitles : Option ProjectContent
  projectfile : Option String
  needsupdate : Bool
  read_project : Bool
  write_project : Bool
  update_project : Bool
  load_subtitles : Bool
  preview : Bool
  resume : Bool
  reparse : Bool
  retranslate : Bool
  include_original : Bool
  stop_event : Option Unit
  periodic_update_thread : Option Unit
deriving DecidableEq, Repr

/-- The eight mode flags of a state, as one value (for flag-invariance
statements). -/
def modeFlagsOf (st : ProjectState) : ModeFlags :=
  { read_project := st.read_project, write_project := st.write_project
    update_project := st.update_project, load_subtitles := st.load_subtitles
    preview := st.preview, resume := st.resume
    reparse := st.reparse, retranslate := st.retranslate }

/-- The constructor `SubtitleProject.__init__` (lines 17-42). Line 41 guards on
`self.update_project and options.get('autosave')`, but line 42 is the bare
expression `self._start_autosave_thread`: it evaluates the bound method
without calling it, so the constructor never creates the stop event or the
background thread and the state is unchanged by that line. -/
def mkSubtitleProject (project : Option String) (autosave : Bool)
    (include_original : Bool) : ProjectState :=
  let f := resolveMode project
  let st : ProjectState :=
    { subtitles := none, projectfile := none, needsupdate := false
      read_project := f.read_project, write_project := f.write_project
      update_project := f.update_project, load_subtitles := f.load_subtitles
      preview := f.preview, resume := f.resume
      reparse := f.reparse, retranslate := f.retranslate
      include_original := include_original
      stop_event := none, periodic_update_thread := none }
  if f.update_project && autosave then st else st

/-- Method `SubtitleProject._start_autosave_thread` (lines 307-312): what actually
starting the autosave scheduler does — create the stop event and start the
daemon background thread. Never invoked by the constructor (see
`mkSubtitleProject`). -/
def start_autosave_thread (st : ProjectState) : ProjectState :=
  { st with stop_event := some (), periodic_update_thread := some () }

/- ## Project Store (`GetProjectFilepath`, write, backup, read, settings) -/

/-- Method `SubtitleProject.GetProjectFilepath` (lines 114-117). -/
def GetProjectFilepath (filepath : String) : String :=
  let pe := splitext filepath
  let fp := if pe.2 = ".subtrans" then filepath else pe.1 ++ ".subtrans"
  normpath fp

/-- Method `SubtitleProject.GetBackupFilepath` (lines 119-121). -/
def GetBackupFilepath (filepath : String) : String :=
  GetProjectFilepath filepath ++ "-backup"

/-- Modelled from the spec: `GetOutputPath` from `PySubtitle.Helpers` is not
under `src/`; the spec says only that the translated-output path is
recomputed from the project file path and the target language (§4.3). Any
concrete recombination will do for the claims; we use the project path root
plus the language tag. -/
def GetOutputPath (path : String) (language : Option String) : String :=
  (splitext path).1 ++ "." ++ (language.getD "translated") ++ ".srt"

/-- Modelled from the spec: `SubtitleFile.Sanitise` is not under `src/`;
the spec says it repairs/validates internal consistency of the loaded
scenes (§4.3), which our abstract content has no room to violate, so it is
the identity here. -/
def Sanitise (c : ProjectContent) : ProjectContent := c

/-- Method `SubtitleProject.WriteProjectFile` (lines 134-169). Returns the mutated
state, the store, the effect trace, and the raised exception if any (the
three precondition checks come first, before any path resolution or file
open; with an explicit path while `write_project` is false, lines 148-150
force `write_project` and `read_project` to true). -/
def WriteProjectFile (st0 : ProjectState) (fs : FS) (arg : Option String) :
    ProjectState × FS × List Effect × Option PyError :=
  match st0.subtitles with
  | none => (st0, fs, [], some (.exception "Cannot write project file, no subtitles"))
  | some subs =>
    if !subs.is_subtitle_file then
      (st0, fs, [], some (.exception "Cannot write project file, wrong content type"))
    else if subs.scenes = [] then
      (st0, fs, [], some (.exception "Cannot write project file, no scenes"))
    else
      let st1 :=
        if arg.isSome && !st0.write_project then
          { st0 with write_project := true, read_project := true }
        else st0
      let st2 :=
        match arg with
        | none => st1
        | some pf =>
          if st1.projectfile = none then
            { st1 with
              projectfile := some (GetProjectFilepath pf)
              subtitles := some { subs with
                outputpath := some (GetOutputPath pf subs.target_language) } }
          else st1
      match (match arg with | none => st2.projectfile | some pf => some pf) with
      | none => (st2, fs, [], some (.exception "No file path provided"))
      | some pf =>
        let pfn := normpath pf
        let written := (st2.subtitles.getD subs)
        ({ st2 with needsupdate := false }, fsWrite fs pfn written,
          [.fileOpen pfn, .fileWrite pfn], none)

/-- Method `SubtitleProject.WriteBackupFile` (lines 171-177). -/
def WriteBackupFile (st : ProjectState) (fs : FS) :
    ProjectState × FS × List Effect × Option PyError :=
  if st.subtitles.isSome && st.projectfile.isSome then
    WriteProjectFile st fs (some (GetBackupFilepath (st.projectfile.getD "")))
  else (st, fs, [], none)

/-- Method `SubtitleProject.ReadProjectFile` (lines 179-202), called with the
project-file path (as `InitialiseProject` does). A missing file
(`FileNotFoundError`) is caught and returns `None`; on success the decoded
content is sanitised and attached as the owned content. -/
def ReadProjectFile (st : ProjectState) (fs : FS) (filepath : String) :
    ProjectState × Option ProjectContent :=
  match fsFind fs filepath with
  | none => (st, none)
  | some c =>
    let c := Sanitise c
    ({ st with subtitles := some c }, some c)

/-- Method `SubtitleProject.LoadSubtitleFile` (lines 123-132). The SRT parse is the
external loading collaborator; `sourceContent` stands for what
`SubtitleFile(filepath).LoadSubtitles()` produces from the source file. -/
def LoadSubtitleFile (st : ProjectState) (sourceContent : ProjectContent) :
    ProjectState :=
  { st with subtitles := some sourceContent }

/-- Method `SubtitleProject.UpdateProjectFile` (lines 204-212): in update mode,
with content present, just sets the dirty flag for the autosave loop. -/
def UpdateProjectFile (st : ProjectState) :
    ProjectState × Option PyError :=
  if st.update_project then
    match st.subtitles with
    | none => (st, some (.exception "Unable to update project file, no subtitles"))
    | some _ => ({ st with needsupdate := true }, none)
  else (st, none)

/-- Python `dict.get(key)` over our association-list settings. -/
def settingsGet (s : List (String × String)) (k : String) : Option String :=
  (s.find? (fun p => p.1 == k)).map (fun p => p.2)

/-- Line 231: `all(settings.get(key) == self.subtitles.settings.get(key)
for key in settings)`. -/
def settingsUnchanged (newSettings stored : List (String × String)) : Bool :=
  newSettings.all (fun kv => settingsGet newSettings kv.1 == settingsGet stored kv.1)

/-- Insert-or-replace one key in an association-list settings map. -/
def settingsPut (s : List (String × String)) (k v : String) :
    List (String × String) :=
  if (s.find? (fun p => p.1 == k)).isSome then
    s.map (fun p => if p.1 == k then (k, v) else p)
  else s ++ [(k, v)]

/-- Modelled from the spec: `SubtitleFile.UpdateProjectSettings` is not
under `src/`; the spec says it "applies the changes to content settings"
(§4.3), i.e. merges the supplied keys into the stored settings. -/
def contentUpdateSettings (c : ProjectContent)
    (settings : List (String × String)) : ProjectContent :=
  { c with settings := settings.foldl (fun acc kv => settingsPut acc kv.1 kv.2) c.settings }

/-- Modelled from the spec: `SubtitleFile.UpdateOutputPath` is not under
`src/`; the spec says the output path is recomputed (§4.3), from the
project path and target language as in `WriteProjectFile` line 156. -/
def contentUpdateOutputPath (projectfile : Option String) (c : ProjectContent) :
    ProjectContent :=
  { c with outputpath := some (GetOutputPath (projectfile.getD "") c.target_language) }

/-- Method `SubtitleProject.UpdateProjectSettings` (lines 220-238): a silent no-op
when content is absent; a no-op when every supplied key matches the stored
value; otherwise applies the changes and, when the content has scenes,
recomputes the output path and performs one synchronous project-file
write. -/
def UpdateProjectSettings (st : ProjectState) (fs : FS)
    (settings : List (String × String)) :
    ProjectState × FS × List Effect × Option PyError :=
  match st.subtitles with
  | none => (st, fs, [], none)
  | some subs =>
    if settingsUnchanged settings subs.settings then (st, fs, [], none)
    else
      let subs1 := contentUpdateSettings subs settings
      let st1 := { st with subtitles := some subs1 }
      if subs1.scenes = [] then (st1, fs, [], none)
      else
        let subs2 := contentUpdateOutputPath st1.projectfile subs1
        let st2 := { st1 with subtitles := some subs2 }
        WriteProjectFile st2 fs none

/- ## Claims on the Project Store -/

/-- The three `WriteProjectFile` preconditions as one predicate: content
present, of the expected type, with at least one scene. -/
def writePreconditionsOk (st : ProjectState) : Bool :=
  match st.subtitles with
  | none => false
  | some c => c.is_subtitle_file && !c.scenes.isEmpty

/-- Which of the three precondition errors fires first. -/
def writePreconditionMsg (st : ProjectState) : String :=
  match st.subtitles with
  | none => "Cannot write project file, no subtitles"
  | some c =>
    if !c.is_subtitle_file then "Cannot write project file, wrong content type"
    else "Cannot write project file, no scenes"

/-- C2 (confirmed): when content is absent, of the wrong type, or has zero
scenes, `WriteProjectFile` raises the corresponding error with the state
unchanged, the store unchanged, and an empty effect trace — in particular
no file was opened, so the on-disk project file is untouched. -/
theorem C2_write_preconditions (st : ProjectState) (fs : FS) (arg : Option String)
    (h : writePreconditionsOk st = false) :
    WriteProjectFile st fs arg =
      (st, fs, [], some (.exception (writePreconditionMsg st))) := by
  cases hs : st.subtitles with
  | none => simp [WriteProjectFile, writePreconditionMsg, hs]
  | some c =>
    cases hf : c.is_subtitle_file with
    | false => simp [WriteProjectFile, writePreconditionMsg, hs, hf]
    | true =>
      cases hsc : c.scenes with
      | nil => simp [WriteProjectFile, writePreconditionMsg, hs, hf, hsc]
      | cons a l =>
        exfalso
        rw [writePreconditionsOk, hs] at h
        simp [hf, hsc] at h

/-- A content object with one scene, used as a concrete test fixture. -/
def sampleContent : ProjectContent :=
  { is_subtitle_file := true, scenes := [1], settings := [("movie_name", "Test")]
    outputpath := none, target_language := some "en", has_subtitles := true }

/-- A content object with zero scenes. -/
def emptyScenesContent : ProjectContent := { sampleContent with scenes := [] }

/-- A content object failing the `isinstance(..., SubtitleFile)` check. -/
def wrongTypeContent : ProjectContent := { sampleContent with is_subtitle_file := false }

/-- A project state with content and a project path attached, as after a
successful initialisation in mode `"true"`. -/
def sampleState : ProjectState :=
  { LoadSubtitleFile (mkSubtitleProject (some "true") false false) sampleContent with
    projectfile := some "movie.subtrans" }

/-- Witness for `C2_write_preconditions`: all three precondition violations
at concrete states (no content; wrong content type; zero scenes). -/
theorem C2_write_preconditions_witness :
    (writePreconditionsOk (mkSubtitleProject (some "true") false false) = false ∧
      WriteProjectFile (mkSubtitleProject (some "true") false false) [] none =
        (mkSubtitleProject (some "true") false false, [], [],
          some (.exception "Cannot write project file, no subtitles"))) ∧
    (writePreconditionsOk { sampleState with subtitles := some wrongTypeContent } = false ∧
      WriteProjectFile { sampleState with subtitles := some wrongTypeContent } [] none =
        ({ sampleState with subtitles := some wrongTypeContent }, [], [],
          some (.exception "Cannot write project file, wrong content type"))) ∧
    (writePreconditionsOk { sampleState with subtitles := some emptyScenesContent } = false ∧
      WriteProjectFile { sampleState with subtitles := some emptyScenesContent } [] none =
        ({ sampleState with subtitles := some emptyScenesContent }, [], [],
          some (.exception "Cannot write project file, no scenes"))) :=
  ⟨⟨by decide, C2_write_preconditions _ [] none (by decide)⟩,
   ⟨by decide, C2_write_preconditions _ [] none (by decide)⟩,
   ⟨by decide, C2_write_preconditions _ [] none (by decide)⟩⟩

/-- C4 (code bug): constructing the project with update mode active and
autosave enabled leaves the autosave scheduler Idle — no stop event and no
background thread exist — because line 42 references
`self._start_autosave_thread` without calling it. The last two conjuncts
show that actually invoking `_start_autosave_thread` (what the claim and
the spec intend) would have created both. -/
theorem C4_autosave_not_started :
    (mkSubtitleProject (some "true") true false).update_project = true ∧
    (mkSubtitleProject (some "true") true false).stop_event = none ∧
    (mkSubtitleProject (some "true") true false).periodic_update_thread = none ∧
    (start_autosave_thread (mkSubtitleProject (some "true") true false)).stop_event = some () ∧
    (start_autosave_thread (mkSubtitleProject (some "true") true false)).periodic_update_thread
      = some () := by
  decide

/-- C10 (confirmed): with no content loaded, `UpdateProjectSettings` is a
silent no-op for every settings dictionary: no exception, no state change,
no store change, no effects. -/
theorem C10_no_content_noop (settings : List (String × String))
    (st : ProjectState) (fs : FS) (h : st.subtitles = none) :
    UpdateProjectSettings st fs settings = (st, fs, [], none) := by
  simp [UpdateProjectSettings, h]

/-- Witness for `C10_no_content_noop` at a freshly constructed project. -/
theorem C10_no_content_noop_witness :
    (mkSubtitleProject (some "true") false false).subtitles = none ∧
    UpdateProjectSettings (mkSubtitleProject (some "true") false false) []
        [("movie_name", "Test")] =
      (mkSubtitleProject (some "true") false false, [], [], none) :=
  ⟨by decide, C10_no_content_noop _ _ [] (by decide)⟩

/-- C7 (confirmed): `UpdateProjectSettings` with content present is a
complete no-op (no mutation, no write, no effects) when every supplied key
already equals the stored value; when some key differs and the content has
scenes (given a well-typed content and a project path so the write can
resolve), it applies the changes, recomputes the output path, and performs
exactly one synchronous project-file write — the trace is exactly one file
open followed by one file write, and the dirty flag is cleared by it. -/
theorem C7_update_settings (st : ProjectState) (fs : FS)
    (S : List (String × String)) (c : ProjectContent)
    (hc : st.subtitles = some c) :
    (settingsUnchanged S c.settings = true →
      UpdateProjectSettings st fs S = (st, fs, [], none)) ∧
    (settingsUnchanged S c.settings = false →
      c.scenes ≠ [] →
      c.is_subtitle_file = true →
      ∀ pf, st.projectfile = some pf →
      UpdateProjectSettings st fs S =
        (let subs2 := contentUpdateOutputPath (some pf) (contentUpdateSettings c S)
         ({ st with subtitles := some subs2, needsupdate := false },
          fsWrite fs (normpath pf) subs2,
          [.fileOpen (normpath pf), .fileWrite (normpath pf)], none))) := by
  constructor
  · intro h
    simp [UpdateProjectSettings, hc, h]
  · intro h hsc hif pf hpf
    simp only [UpdateProjectSettings, hc, h, Bool.false_eq_true, if_false]
    have hsc1 : (contentUpdateSettings c S).scenes = c.scenes := rfl
    have hif1 : (contentUpdateOutputPath (some pf) (contentUpdateSettings c S)).is_subtitle_file
        = c.is_subtitle_file := rfl
    simp only [hsc1, hsc, if_false, WriteProjectFile, hpf]
    simp [WriteProjectFile, hpf, hif1, hif, hsc, hsc1, contentUpdateOutputPath,
      contentUpdateSettings]

/-- Witness for `C7_update_settings`: the no-op branch at an identical
settings dictionary and the one-write branch at a differing one, both at a
concrete initialised state. -/
theorem C7_update_settings_witness :
    (settingsUnchanged [("movie_name", "Test")] sampleContent.settings = true ∧
      UpdateProjectSettings sampleState [] [("movie_name", "Test")] =
        (sampleState, [], [], none)) ∧
    (settingsUnchanged [("movie_name", "Other")] sampleContent.settings = false ∧
      sampleContent.scenes ≠ [] ∧
      sampleContent.is_subtitle_file = true ∧
      sampleState.projectfile = some "movie.subtrans" ∧
      UpdateProjectSettings sampleState [] [("movie_name", "Other")] =
        (let subs2 := contentUpdateOutputPath (some "movie.subtrans")
          (contentUpdateSettings sampleContent [("movie_name", "Other")])
         ({ sampleState with subtitles := some subs2, needsupdate := false },
          fsWrite [] (normpath "movie.subtrans") subs2,
          [.fileOpen (normpath "movie.subtrans"), .fileWrite (normpath "movie.subtrans")],
          none))) :=
  ⟨⟨by decide,
    (C7_update_settings sampleState [] [("movie_name", "Test")] sampleContent rfl).1
      (by decide)⟩,
   ⟨by decide, by decide, rfl, rfl,
    (C7_update_settings sampleState [] [("movie_name", "Other")] sampleContent rfl).2
      (by decide) (by decide) rfl "movie.subtrans" rfl⟩⟩

/- ## Translator events and the orchestration entry points -/

/-- A handler subscribed to a translator event channel: the project's own
bound handler (`_on_preprocessed` / `_on_batch_translated` /
`_on_scene_translated`) or some external handler. -/
inductive HandlerId where
  | project
  | externalHandler (n : Nat)
deriving DecidableEq, Repr

/-- The external translator's three event channels
(`translator.events.preprocessed` / `batch_translated` /
`scene_translated`), each an ordered list of subscribed handlers; `+=`
appends and `-=` removes the first occurrence. -/
structure TranslatorEvents where
  preprocessed : List HandlerId
  batch_translated : List HandlerId
  scene_translated : List HandlerId
deriving DecidableEq, Repr

/-- An event raised by the translator during a run. -/
inductive TransEvent where
  | preprocessed
  | batchTranslated
  | sceneTranslated
deriving DecidableEq, Repr

/-- How a translator run ends: normal completion, a
`TranslationAbortedError`, or any other exception. -/
inductive RunOutcome where
  | success
  | aborted
  | failed
deriving DecidableEq, Repr

/-- The behaviour of one `translator.TranslateSubtitles` /
`translator.TranslateScene` invocation: the lifecycle events it raises (in
order, before the outcome) and how it ends, plus the translator's
`stop_on_error` flag. -/
structure TranslatorRun where
  events : List TransEvent
  outcome : RunOutcome
  stop_on_error : Bool

/-- Handler `SubtitleProject._on_preprocessed` (lines 321-324): set the dirty flag
to `update_project`, forward the event on the project's own bus. -/
def on_preprocessed (st : ProjectState) : ProjectState × List Effect :=
  ({ st with needsupdate := st.update_project }, [.forwardPreprocessed])

/-- Handler `SubtitleProject._on_batch_translated` (lines 326-329). -/
def on_batch_translated (st : ProjectState) : ProjectState × List Effect :=
  ({ st with needsupdate := st.update_project }, [.forwardBatchTranslated])

/-- Handler `SubtitleProject._on_scene_translated` (lines 331-335): save the
translated output, set the dirty flag to `update_project`, forward the
event. -/
def on_scene_translated (st : ProjectState) : ProjectState × List Effect :=
  ({ st with needsupdate := st.update_project },
    [.saveTranslation, .forwardSceneTranslated])

/-- Raise one translator event: the project handler runs when it is
subscribed on that channel (external handlers are outside this core and
have no modelled effect). -/
def fireEvent (tev : TranslatorEvents) (st : ProjectState) (e : TransEvent) :
    ProjectState × List Effect :=
  match e with
  | .preprocessed =>
    if tev.preprocessed.contains .project then on_preprocessed st else (st, [])
  | .batchTranslated =>
    if tev.batch_translated.contains .project then on_batch_translated st else (st, [])
  | .sceneTranslated =>
    if tev.scene_translated.contains .project then on_scene_translated st else (st, [])

/-- Raise a sequence of translator events, accumulating state and trace. -/
def runEvents (tev : TranslatorEvents) (st : ProjectState) :
    List TransEvent → ProjectState × List Effect
  | [] => (st, [])
  | e :: es =>
    let r1 := fireEvent tev st e
    let r2 := runEvents tev r1.1 es
    (r2.1, r1.2 ++ r2.2)

/-- Lines 252-254: subscribe the three project handlers for a whole-run
translation. -/
def subscribeProjectHandlers (tev : TranslatorEvents) : TranslatorEvents :=
  { preprocessed := tev.preprocessed ++ [.project]
    batch_translated := tev.batch_translated ++ [.project]
    scene_translated := tev.scene_translated ++ [.project] }

/-- Lines 258-260: the matching unsubscribes (`-=` removes the first
occurrence). -/
def unsubscribeProjectHandlers (tev : TranslatorEvents) : TranslatorEvents :=
  { preprocessed := tev.preprocessed.erase .project
    batch_translated := tev.batch_translated.erase .project
    scene_translated := tev.scene_translated.erase .project }

/-- Lines 283-284: subscribe the two project handlers for a single-scene
translation. -/
def subscribeSceneHandlers (tev : TranslatorEvents) : TranslatorEvents :=
  { tev with preprocessed := tev.preprocessed ++ [.project]
             batch_translated := tev.batch_translated ++ [.project] }

/-- Lines 290-291: the matching unsubscribes. -/
def unsubscribeSceneHandlers (tev : TranslatorEvents) : TranslatorEvents :=
  { tev with preprocessed := tev.preprocessed.erase .project
             batch_translated := tev.batch_translated.erase .project }

/-- The priming write of `TranslateSubtitles` (lines 247-249): when
`write_project` is set, write the project file before the `try` block. -/
def primeWrite (st : ProjectState) (fs : FS) :
    ProjectState × FS × List Effect × Option PyError :=
  if st.write_project then WriteProjectFile st fs none else (st, fs, [], none)

/-- Method `SubtitleProject.TranslateSubtitles` (lines 240-273). Fail fast without
content; prime the project file when `write_project`; subscribe the three
handlers; run the translator; on success unsubscribe and save the output;
on `TranslationAbortedError` re-raise with no further action; on any other
failure save the output when `stop_on_error`, then re-raise. The
unsubscribe calls sit on the success path only (inside the `try`, not in a
`finally`), so the error paths return with the handlers still attached. -/
def TranslateSubtitles (st : ProjectState) (fs : FS) (tev : TranslatorEvents)
    (run : TranslatorRun) :
    ProjectState × FS × TranslatorEvents × List Effect × Option PyError :=
  match st.subtitles with
  | none => (st, fs, tev, [], some (.exception "No subtitles to translate"))
  | some _ =>
    let p := primeWrite st fs
    match p.2.2.2 with
    | some e => (p.1, p.2.1, tev, p.2.2.1, some e)
    | none =>
      let st1 := p.1
      let fs1 := p.2.1
      let tr1 := p.2.2.1
      let tev1 := subscribeProjectHandlers tev
      let r := runEvents tev1 st1 run.events
      match run.outcome with
      | .success =>
        let tev2 := unsubscribeProjectHandlers tev1
        (r.1, fs1, tev2, tr1 ++ r.2 ++ [.saveTranslation], none)
      | .aborted =>
        (r.1, fs1, tev1, tr1 ++ r.2, some .translationAborted)
      | .failed =>
        let rescue := if r.1.subtitles.isSome && run.stop_on_error
          then [Effect.saveTranslation] else []
        (r.1, fs1, tev1, tr1 ++ r.2 ++ rescue,
          some (.exception "Failed to translate subtitles"))

/-- Modelled from the spec: `SubtitleFile.GetScene` is not under `src/`;
it returns the scene with the given number, raising when there is none
(§4.5: `translateScene(content, sceneNumber, ...)`; scenes are identified
by their numbers here). -/
def GetScene (c : ProjectContent) (scene_number : Nat) : Option Nat :=
  c.scenes.find? (fun n => n == scene_number)

/-- Method `SubtitleProject.TranslateScene` (lines 275-305). Same shape as the
whole-run path but with no priming write, only the `preprocessed` and
`batch_translated` handlers, and the (mutated) scene returned on success.
The `GetScene` lookup sits inside the `try` after the subscribes, so a
lookup failure hits the generic handler with the handlers attached. -/
def TranslateScene (st : ProjectState) (fs : FS) (tev : TranslatorEvents)
    (run : TranslatorRun) (scene_number : Nat) :
    ProjectState × FS × TranslatorEvents × List Effect × Option PyError × Option Nat :=
  match st.subtitles with
  | none => (st, fs, tev, [], some (.exception "No subtitles to translate"), none)
  | some subs =>
    let tev1 := subscribeSceneHandlers tev
    match GetScene subs scene_number with
    | none =>
      let rescue := if run.stop_on_error then [Effect.saveTranslation] else []
      (st, fs, tev1, rescue, some (.exception "Failed to translate subtitles"), none)
    | some scene =>
      let r := runEvents tev1 st run.events
      match run.outcome with
      | .success =>
        let tev2 := unsubscribeSceneHandlers tev1
        (r.1, fs, tev2, r.2 ++ [.saveTranslation], none, some scene)
      | .aborted =>
        (r.1, fs, tev1, r.2, some .translationAborted, none)
      | .failed =>
        let rescue := if r.1.subtitles.isSome && run.stop_on_error
          then [Effect.saveTranslation] else []
        (r.1, fs, tev1, r.2 ++ rescue,
          some (.exception "Failed to translate subtitles"), none)

/- ## Claims on the orchestrator -/

lemma fireEvent_update_project (tev : TranslatorEvents) (st : ProjectState)
    (e : TransEvent) : (fireEvent tev st e).1.update_project = st.update_project := by
  cases e <;>
    simp only [fireEvent, on_preprocessed, on_batch_translated, on_scene_translated] <;>
    split <;> rfl

lemma runEvents_update_project (tev : TranslatorEvents) :
    ∀ (es : List TransEvent) (st : ProjectState),
      (runEvents tev st es).1.update_project = st.update_project
  | [], _ => rfl
  | e :: es, st => by
    simp only [runEvents]
    rw [runEvents_update_project tev es, fireEvent_update_project]

lemma runEvents_append (tev : TranslatorEvents) :
    ∀ (es1 es2 : List TransEvent) (st : ProjectState),
      runEvents tev st (es1 ++ es2) =
        ((runEvents tev (runEvents tev st es1).1 es2).1,
          (runEvents tev st es1).2 ++ (runEvents tev (runEvents tev st es1).1 es2).2)
  | [], es2, st => by simp [runEvents]
  | e :: es1, es2, st => by
    simp only [List.cons_append, runEvents]
    rw [show (es1.append es2) = es1 ++ es2 from rfl, runEvents_append tev es1 es2]
    simp [List.append_assoc]

/-- C3 (confirmed): whenever the project's scene-completed handler is
subscribed — as `TranslateSubtitles` does for the whole run (third
conjunct) — a scene-completed event raised at any point of the run
immediately emits a translated-output save followed by the forwarded event
on the project bus, and sets the dirty flag to `update_project` (which the
run never changes, second conjunct); the save appears unconditionally, with
no reference to any autosave configuration. -/
theorem C3_scene_completed_saves (tev : TranslatorEvents) (st : ProjectState)
    (es1 es2 : List TransEvent)
    (h : tev.scene_translated.contains .project = true) :
    (runEvents tev st (es1 ++ .sceneTranslated :: es2) =
      ((runEvents tev
          { (runEvents tev st es1).1 with
            needsupdate := (runEvents tev st es1).1.update_project } es2).1,
        (runEvents tev st es1).2 ++
          .saveTranslation :: .forwardSceneTranslated ::
            (runEvents tev
              { (runEvents tev st es1).1 with
                needsupdate := (runEvents tev st es1).1.update_project } es2).2)) ∧
    (runEvents tev st es1).1.update_project = st.update_project ∧
    (subscribeProjectHandlers tev).scene_translated.contains HandlerId.project = true := by
  refine ⟨?_, runEvents_update_project tev es1 st, by simp [subscribeProjectHandlers]⟩
  rw [runEvents_append]
  simp only [runEvents, fireEvent, h, if_true, on_scene_translated]
  rfl

/-- Witness for `C3_scene_completed_saves` at the subscription state of a
whole-run translation over a batch event, a scene event, and a following
batch event. -/
theorem C3_scene_completed_saves_witness :
    (subscribeProjectHandlers ⟨[], [], []⟩).scene_translated.contains HandlerId.project
        = true ∧
    runEvents (subscribeProjectHandlers ⟨[], [], []⟩) sampleState
        ([.batchTranslated] ++ .sceneTranslated :: [.batchTranslated]) =
      ({ sampleState with needsupdate := sampleState.update_project },
        [.forwardBatchTranslated, .saveTranslation, .forwardSceneTranslated,
          .forwardBatchTranslated]) :=
  ⟨by decide, by
    have hmain := (C3_scene_completed_saves (subscribeProjectHandlers ⟨[], [], []⟩)
      sampleState [.batchTranslated] [.batchTranslated] (by decide)).1
    rw [hmain]
    decide⟩

/-- A translator invocation that raises no events and ends in
`TranslationAbortedError`. -/
def abortRun : TranslatorRun := { events := [], outcome := .aborted, stop_on_error := false }

/-- A translator invocation that raises no events and completes normally. -/
def successRun : TranslatorRun := { events := [], outcome := .success, stop_on_error := false }

/-- Translator event channels with no subscribers. -/
def emptyEvents : TranslatorEvents := { preprocessed := [], batch_translated := [], scene_translated := [] }

/-- C8 (confirmed): when the translator run ends in
`TranslationAbortedError`, both entry points re-raise exactly
`translationAborted` (not wrapped or replaced), and the trace is exactly
the priming-write trace plus whatever the run's own events produced —
nothing is appended after the abort, so there is no extra save and no
rescue-save on the abort path. -/
theorem C8_abort_propagation :
    (∀ (st : ProjectState) (fs : FS) (tev : TranslatorEvents) (run : TranslatorRun)
       (c : ProjectContent) (st1 : ProjectState) (fs1 : FS) (tr1 : List Effect),
      st.subtitles = some c →
      run.outcome = .aborted →
      primeWrite st fs = (st1, fs1, tr1, none) →
      TranslateSubtitles st fs tev run =
        ((runEvents (subscribeProjectHandlers tev) st1 run.events).1, fs1,
          subscribeProjectHandlers tev,
          tr1 ++ (runEvents (subscribeProjectHandlers tev) st1 run.events).2,
          some .translationAborted)) ∧
    (∀ (st : ProjectState) (fs : FS) (tev : TranslatorEvents) (run : TranslatorRun)
       (c : ProjectContent) (sc scene_number : Nat),
      st.subtitles = some c →
      run.outcome = .aborted →
      GetScene c scene_number = some sc →
      TranslateScene st fs tev run scene_number =
        ((runEvents (subscribeSceneHandlers tev) st run.events).1, fs,
          subscribeSceneHandlers tev,
          (runEvents (subscribeSceneHandlers tev) st run.events).2,
          some .translationAborted, none)) := by
  constructor
  · intro st fs tev run c st1 fs1 tr1 hc hab hp
    simp [TranslateSubtitles, hc, hp, hab]
  · intro st fs tev run c sc scene_number hc hab hg
    simp [TranslateScene, hc, hg, hab]

/-- Witness for `C8_abort_propagation`: both entry points at a concrete
initialised state with an aborting, event-free translator run. The
whole-run path performs its priming write first (mode `"true"` has
`write_project`), then propagates the abort with nothing appended; the
single-scene path, which has no priming write, produces no effect at all. -/
theorem C8_abort_propagation_witness :
    sampleState.subtitles = some sampleContent ∧
    abortRun.outcome = .aborted ∧
    primeWrite sampleState [] =
      (sampleState, [("movie.subtrans", sampleContent)],
        [.fileOpen "movie.subtrans", .fileWrite "movie.subtrans"], none) ∧
    GetScene sampleContent 1 = some 1 ∧
    TranslateSubtitles sampleState [] emptyEvents abortRun =
      (sampleState, [("movie.subtrans", sampleContent)],
        subscribeProjectHandlers emptyEvents,
        [.fileOpen "movie.subtrans", .fileWrite "movie.subtrans"],
        some .translationAborted) ∧
    TranslateScene sampleState [] emptyEvents abortRun 1 =
      (sampleState, [], subscribeSceneHandlers emptyEvents, [],
        some .translationAborted, none) :=
  ⟨rfl, rfl, by decide, by decide,
    C8_abort_propagation.1 sampleState [] emptyEvents abortRun sampleContent
      sampleState [("movie.subtrans", sampleContent)]
      [.fileOpen "movie.subtrans", .fileWrite "movie.subtrans"] rfl rfl (by decide),
    C8_abort_propagation.2 sampleState [] emptyEvents abortRun sampleContent
      1 1 rfl rfl (by decide)⟩

/-- C5 (code bug): after a run that ends in `TranslationAbortedError`, the
project handlers added by `TranslateSubtitles` (all three) and by
`TranslateScene` (two) are still subscribed on the translator — the
unsubscribe calls live inside the `try` block and are skipped on the
exception paths — so the subscription state after the call differs from
the state before it; only the normal-completion path (last two conjuncts)
restores it. -/
theorem C5_handlers_leak_on_abort :
    (TranslateSubtitles sampleState [] emptyEvents abortRun).2.2.1 =
      { preprocessed := [HandlerId.project], batch_translated := [HandlerId.project],
        scene_translated := [HandlerId.project] } ∧
    (TranslateScene sampleState [] emptyEvents abortRun 1).2.2.1 =
      { preprocessed := [HandlerId.project], batch_translated := [HandlerId.project],
        scene_translated := [] } ∧
    (TranslateSubtitles sampleState [] emptyEvents abortRun).2.2.1 ≠ emptyEvents ∧
    (TranslateScene sampleState [] emptyEvents abortRun 1).2.2.1 ≠ emptyEvents ∧
    (TranslateSubtitles sampleState [] emptyEvents successRun).2.2.1 = emptyEvents ∧
    (TranslateScene sampleState [] emptyEvents successRun 1).2.2.1 = emptyEvents := by
  decide


/- ## Project initialisation (`InitialiseProject`, lines 53-96) -/

/-- Lines 61-65 of `InitialiseProject`: normalize the input path, derive
and store the project path, and force `read`/`write` when the derived
project path equals the input AND `read_project` was false. -/
def initDeriveAndForce (st0 : ProjectState) (filepath : String) : ProjectState :=
  let pfile := GetProjectFilepath (if filepath = "" then "subtitles" else filepath)
  let st1 := { st0 with projectfile := some pfile }
  if pfile = filepath && !st1.read_project then
    { st1 with read_project := true, write_project := true }
  else st1

/-- Lines 67-71: downgrade `read` and force `load_subtitles` when the
project file does not exist on disk. -/
def initDowngradeRead (st : ProjectState) (fs : FS) : ProjectState :=
  if st.read_project && (fsFind fs (st.projectfile.getD "")).isNone then
    { st with read_project := false, load_subtitles := true }
  else st

/-- Lines 73-86: the read branch. Try the project file; on success with at
least one scene keep it (optionally writing a backup, whose failure
propagates); otherwise fall back to a fresh source load. Returns the state,
store, trace, raised error, and the Python local `subtitles` (`none` when
the branch did not run, i.e. the local stays unbound). -/
def initReadStep (st : ProjectState) (fs : FS) (write_backup : Bool) :
    ProjectState × FS × List Effect × Option PyError × Option ProjectContent :=
  if st.read_project then
    match ReadProjectFile st fs (st.projectfile.getD "") with
    | (st4, some c) =>
      if c.scenes ≠ [] then
        let st5 := { st4 with load_subtitles := false }
        if write_backup then
          match WriteBackupFile st5 fs with
          | (st6, fs6, tr6, e6) => (st6, fs6, tr6, e6, some c)
        else (st5, fs, [], none, some c)
      else ({ st4 with load_subtitles := true }, fs, [], none, some c)
    | (st4, none) => ({ st4 with load_subtitles := true }, fs, [], none, none)
  else (st, fs, [], none, none)

/-- Lines 88-96: load the source file when `load_subtitles`; apply the
output-path override; fail with `ValueError` when there are no subtitles;
raise `NameError` when neither branch ever bound the local `subtitles`. -/
def initFinishStep (st : ProjectState) (fs : FS) (tr : List Effect)
    (subsRead : Option ProjectContent) (outputpath : Option String)
    (sourceContent : ProjectContent) :
    ProjectState × FS × List Effect × Option PyError :=
  let loaded : ProjectState × Option ProjectContent :=
    if st.load_subtitles then
      let st5 := LoadSubtitleFile st sourceContent
      (st5, st5.subtitles)
    else (st, subsRead)
  match loaded.2 with
  | none => (loaded.1, fs, tr, some (.exception "NameError: name subtitles is not defined"))
  | some c =>
    let withOut : ProjectState × ProjectContent :=
      match outputpath with
      | some op =>
        let c1 := { c with outputpath := some op }
        ({ loaded.1 with subtitles := some c1 }, c1)
      | none => (loaded.1, c)
    if !withOut.2.has_subtitles then
      (withOut.1, fs, tr, some (.valueError "No subtitles to translate"))
    else (withOut.1, fs, tr, none)

/-- Method `SubtitleProject.InitialiseProject` (lines 53-96), as the composition
of its four stages. `sourceContent` stands for what the external SRT
loader produces from the source file. -/
def InitialiseProject (st0 : ProjectState) (fs : FS) (filepath0 : String)
    (outputpath : Option String) (write_backup : Bool)
    (sourceContent : ProjectContent) :
    ProjectState × FS × List Effect × Option PyError :=
  match initReadStep (initDowngradeRead (initDeriveAndForce st0 (normpath filepath0)) fs)
      fs write_backup with
  | (st4, fs4, tr4, some e, _) => (st4, fs4, tr4, some e)
  | (st4, fs4, tr4, none, subsRead) =>
    initFinishStep st4 fs4 tr4 subsRead outputpath sourceContent

/- ## Claims on initialisation and flag stability -/

lemma initDeriveAndForce_read (st : ProjectState) (fp : String)
    (h1 : fp ≠ "") (h2 : GetProjectFilepath fp = fp)
    (h3 : st.read_project = true) :
    initDeriveAndForce st fp = { st with projectfile := some fp } := by
  simp [initDeriveAndForce, h1, h2, h3]

lemma initDeriveAndForce_noread (st : ProjectState) (fp : String)
    (h1 : fp ≠ "") (h2 : GetProjectFilepath fp = fp)
    (h3 : st.read_project = false) :
    initDeriveAndForce st fp =
      { st with projectfile := some fp, read_project := true,
                write_project := true } := by
  simp [initDeriveAndForce, h1, h2, h3]

lemma initDowngradeRead_exists (st : ProjectState) (fs : FS)
    (h : (fsFind fs (st.projectfile.getD "")).isSome = true) :
    initDowngradeRead st fs = st := by
  simp only [initDowngradeRead, Option.isSome_iff_exists] at *
  obtain ⟨c, hc⟩ := h
  simp [hc]

lemma initReadStep_found (st : ProjectState) (fs : FS) (c : ProjectContent)
    (h1 : st.read_project = true)
    (h2 : fsFind fs (st.projectfile.getD "") = some c)
    (h3 : c.scenes ≠ []) :
    initReadStep st fs false =
      ({ st with subtitles := some c, load_subtitles := false }, fs, [],
        none, some c) := by
  simp [initReadStep, ReadProjectFile, Sanitise, h1, h2, h3]

lemma initFinishStep_ok (st : ProjectState) (fs : FS) (tr : List Effect)
    (c : ProjectContent) (src : ProjectContent)
    (h1 : st.load_subtitles = false) (h2 : c.has_subtitles = true) :
    initFinishStep st fs tr (some c) none src = (st, fs, tr, none) := by
  simp [initFinishStep, h1, h2]

/-- C6 counterexample: in mode `"read"` (resolved flags `read=true,
write=false`), initialising with the input path `"movie.subtrans"` — which
equals the derived project path — completes successfully but leaves
`write_project = false`: the forcing on lines 63-65 is guarded by
`not self.read_project`, so it does not fire when read was already
resolved true, contradicting the claim's "regardless of which mode flags
were originally resolved". -/
theorem C6_counterexample :
    (mkSubtitleProject (some "read") false false).read_project = true ∧
    (mkSubtitleProject (some "read") false false).write_project = false ∧
    GetProjectFilepath "movie.subtrans" = "movie.subtrans" ∧
    (InitialiseProject (mkSubtitleProject (some "read") false false)
        [("movie.subtrans", sampleContent)] "movie.subtrans" none false
        sampleContent).2.2.2 = none ∧
    (InitialiseProject (mkSubtitleProject (some "read") false false)
        [("movie.subtrans", sampleContent)] "movie.subtrans" none false
        sampleContent).1.write_project = false := by
  decide

/-- C6 (amended): when the input path equals the derived project path,
initialisation forces `read = true` and `write = true` only if the
resolved mode had `read = false`; when `read` was already resolved true
the flags are left as resolved, so afterwards `read` is true and `write`
is `write OR NOT read` of the resolved flags. Stated for a successful
run: the project file exists with at least one scene and has subtitles,
no output-path override, no backup. -/
theorem C6_forced_flags (st : ProjectState) (fs : FS) (filepath0 : String)
    (c : ProjectContent) (sourceContent : ProjectContent)
    (hne : normpath filepath0 ≠ "")
    (hpf : GetProjectFilepath (normpath filepath0) = normpath filepath0)
    (hfind : fsFind fs (normpath filepath0) = some c)
    (hscenes : c.scenes ≠ [])
    (hsubs : c.has_subtitles = true) :
    (InitialiseProject st fs filepath0 none false sourceContent).2.2.2 = none ∧
    (InitialiseProject st fs filepath0 none false sourceContent).1.read_project = true ∧
    (InitialiseProject st fs filepath0 none false sourceContent).1.write_project =
      (st.write_project || !st.read_project) := by
  cases hr : st.read_project with
  | true =>
    have hd := initDeriveAndForce_read st (normpath filepath0) hne hpf hr
    have hdg : initDowngradeRead { st with projectfile := some (normpath filepath0) } fs
        = { st with projectfile := some (normpath filepath0) } :=
      initDowngradeRead_exists _ _ (by simp [hfind])
    have hrd := initReadStep_found { st with projectfile := some (normpath filepath0) }
      fs c (by simp [hr]) (by simp [hfind]) hscenes
    have key : InitialiseProject st fs filepath0 none false sourceContent
        = ({ st with
              projectfile := some (normpath filepath0)
              subtitles := some c
              load_subtitles := false }, fs, [], none) := by
      unfold InitialiseProject
      rw [hd, hdg, hrd]
      exact initFinishStep_ok
        { st with projectfile := some (normpath filepath0), subtitles := some c,
                  load_subtitles := false } fs [] c sourceContent rfl hsubs
    rw [key]
    simp [hr]
  | false =>
    have hd := initDeriveAndForce_noread st (normpath filepath0) hne hpf hr
    have hdg : initDowngradeRead
        { st with projectfile := some (normpath filepath0), read_project := true,
                  write_project := true } fs
        = { st with projectfile := some (normpath filepath0), read_project := true,
                    write_project := true } :=
      initDowngradeRead_exists _ _ (by simp [hfind])
    have hrd := initReadStep_found
      { st with projectfile := some (normpath filepath0), read_project := true,
                write_project := true }
      fs c (by simp) (by simp [hfind]) hscenes
    have key : InitialiseProject st fs filepath0 none false sourceContent
        = ({ st with
              projectfile := some (normpath filepath0)
              read_project := true
              write_project := true
              subtitles := some c
              load_subtitles := false }, fs, [], none) := by
      unfold InitialiseProject
      rw [hd, hdg, hrd]
      exact initFinishStep_ok
        { st with projectfile := some (normpath filepath0), read_project := true,
                  write_project := true, subtitles := some c,
                  load_subtitles := false } fs [] c sourceContent rfl hsubs
    rw [key]
    simp

/-- Witness for `C6_forced_flags` at mode `""` (resolved flags all false):
pointing the initialiser at the project file itself forces
`read = write = true`. -/
theorem C6_forced_flags_witness :
    normpath "movie.subtrans" ≠ "" ∧
    GetProjectFilepath (normpath "movie.subtrans") = normpath "movie.subtrans" ∧
    fsFind [("movie.subtrans", sampleContent)] (normpath "movie.subtrans")
      = some sampleContent ∧
    sampleContent.scenes ≠ [] ∧
    sampleContent.has_subtitles = true ∧
    (InitialiseProject (mkSubtitleProject (some "") false false)
        [("movie.subtrans", sampleContent)] "movie.subtrans" none false
        sampleContent).2.2.2 = none ∧
    (InitialiseProject (mkSubtitleProject (some "") false false)
        [("movie.subtrans", sampleContent)] "movie.subtrans" none false
        sampleContent).1.read_project = true ∧
    (InitialiseProject (mkSubtitleProject (some "") false false)
        [("movie.subtrans", sampleContent)] "movie.subtrans" none false
        sampleContent).1.write_project = true :=
  ⟨by decide, by decide, by decide, by decide, by decide,
    (C6_forced_flags (mkSubtitleProject (some "") false false)
      [("movie.subtrans", sampleContent)] "movie.subtrans" sampleContent
      sampleContent (by decide) (by decide) (by decide) (by decide) (by decide)).1,
    (C6_forced_flags (mkSubtitleProject (some "") false false)
      [("movie.subtrans", sampleContent)] "movie.subtrans" sampleContent
      sampleContent (by decide) (by decide) (by decide) (by decide) (by decide)).2.1,
    (C6_forced_flags (mkSubtitleProject (some "") false false)
      [("movie.subtrans", sampleContent)] "movie.subtrans" sampleContent
      sampleContent (by decide) (by decide) (by decide) (by decide) (by decide)).2.2⟩

lemma WriteProjectFile_flags (st : ProjectState) (fs : FS) (arg : Option String) :
    ((WriteProjectFile st fs arg).1.update_project = st.update_project ∧
      (WriteProjectFile st fs arg).1.load_subtitles = st.load_subtitles ∧
      (WriteProjectFile st fs arg).1.preview = st.preview ∧
      (WriteProjectFile st fs arg).1.resume = st.resume ∧
      (WriteProjectFile st fs arg).1.reparse = st.reparse ∧
      (WriteProjectFile st fs arg).1.retranslate = st.retranslate) ∧
    ((WriteProjectFile st fs arg).1.write_project,
      (WriteProjectFile st fs arg).1.read_project) =
      (if writePreconditionsOk st && (arg.isSome && !st.write_project)
        then (true, true)
        else (st.write_project, st.read_project)) := by
  cases hs : st.subtitles with
  | none => simp [WriteProjectFile, writePreconditionsOk, hs]
  | some c =>
    cases hf : c.is_subtitle_file with
    | false => simp [WriteProjectFile, writePreconditionsOk, hs, hf]
    | true =>
      cases hsc : c.scenes with
      | nil => simp [WriteProjectFile, writePreconditionsOk, hs, hf, hsc]
      | cons a l =>
        cases arg with
        | none =>
          cases hpf : st.projectfile <;>
            simp [WriteProjectFile, writePreconditionsOk, hs, hf, hsc, hpf]
        | some pf =>
          cases hw : st.write_project with
          | false =>
            cases hpf : st.projectfile <;>
              simp [WriteProjectFile, writePreconditionsOk, hs, hf, hsc, hw, hpf]
          | true =>
            cases hpf : st.projectfile <;>
              simp [WriteProjectFile, writePreconditionsOk, hs, hf, hsc, hw, hpf]

lemma WriteProjectFile_flags_none (st : ProjectState) (fs : FS) :
    modeFlagsOf (WriteProjectFile st fs none).1 = modeFlagsOf st := by
  have h := WriteProjectFile_flags st fs none
  simp only [Option.isSome_none, Bool.false_and, Bool.and_false, if_false] at h
  obtain ⟨⟨h1, h2, h3, h4, h5, h6⟩, h7⟩ := h
  have hw := congrArg Prod.fst h7
  have hr := congrArg Prod.snd h7
  simp only at hw hr
  simp [modeFlagsOf, h1, h2, h3, h4, h5, h6, hw, hr]

lemma UpdateProjectSettings_flags (st : ProjectState) (fs : FS)
    (S : List (String × String)) :
    modeFlagsOf (UpdateProjectSettings st fs S).1 = modeFlagsOf st := by
  cases hs : st.subtitles with
  | none => simp [UpdateProjectSettings, hs]
  | some c =>
    by_cases hu : settingsUnchanged S c.settings
    · simp [UpdateProjectSettings, hs, hu]
    · cases hsc : (contentUpdateSettings c S).scenes with
      | nil =>
        simp [UpdateProjectSettings, hs, hu, hsc, modeFlagsOf]
      | cons a l =>
        simp only [UpdateProjectSettings, hs, hu, hsc, if_false, ite_false,
          List.cons_ne_nil, if_neg, decide_False]
        rw [if_neg (by simp)]
        exact WriteProjectFile_flags_none _ fs

lemma fireEvent_flags (tev : TranslatorEvents) (st : ProjectState) (e : TransEvent) :
    modeFlagsOf (fireEvent tev st e).1 = modeFlagsOf st := by
  cases e <;>
    simp only [fireEvent, on_preprocessed, on_batch_translated, on_scene_translated] <;>
    split <;> rfl

lemma runEvents_flags (tev : TranslatorEvents) :
    ∀ (es : List TransEvent) (st : ProjectState),
      modeFlagsOf (runEvents tev st es).1 = modeFlagsOf st
  | [], _ => rfl
  | e :: es, st => by
    simp only [runEvents]
    rw [runEvents_flags tev es, fireEvent_flags]

lemma primeWrite_flags (st : ProjectState) (fs : FS) :
    modeFlagsOf (primeWrite st fs).1 = modeFlagsOf st := by
  unfold primeWrite
  split
  · exact WriteProjectFile_flags_none st fs
  · rfl

lemma TranslateSubtitles_flags (st : ProjectState) (fs : FS)
    (tev : TranslatorEvents) (run : TranslatorRun) :
    modeFlagsOf (TranslateSubtitles st fs tev run).1 = modeFlagsOf st := by
  cases hs : st.subtitles with
  | none => simp [TranslateSubtitles, hs]
  | some c =>
    simp only [TranslateSubtitles, hs]
    cases hperr : (primeWrite st fs).2.2.2 with
    | some e =>
      simp only [hperr]
      exact primeWrite_flags st fs
    | none =>
      cases ho : run.outcome <;>
        simp only [hperr, ho] <;>
        rw [runEvents_flags, primeWrite_flags]

lemma TranslateScene_flags (st : ProjectState) (fs : FS)
    (tev : TranslatorEvents) (run : TranslatorRun) (n : Nat) :
    modeFlagsOf (TranslateScene st fs tev run n).1 = modeFlagsOf st := by
  cases hs : st.subtitles with
  | none => simp [TranslateScene, hs]
  | some c =>
    simp only [TranslateScene, hs]
    cases hg : GetScene c n with
    | none => simp only [hg]
    | some sc =>
      cases ho : run.outcome <;>
        simp only [hg, ho] <;>
        rw [runEvents_flags]

/-- C9 counterexample: the mode flags are not immutable after construction.
Construct with mode `""` (resolved `write_project = false`), load content,
then call `WriteProjectFile` with an explicit path: lines 148-150 set
`write_project` and `read_project` to true, so an operation invoked after
construction modified the flags, contradicting the claim. -/
theorem C9_counterexample :
    (LoadSubtitleFile (mkSubtitleProject (some "") false false) sampleContent).write_project
      = false ∧
    (LoadSubtitleFile (mkSubtitleProject (some "") false false) sampleContent).read_project
      = false ∧
    (WriteProjectFile
      (LoadSubtitleFile (mkSubtitleProject (some "") false false) sampleContent)
      [] (some "movie.subtrans")).1.write_project = true ∧
    (WriteProjectFile
      (LoadSubtitleFile (mkSubtitleProject (some "") false false) sampleContent)
      [] (some "movie.subtrans")).1.read_project = true := by
  decide

/-- C9 (amended): the mode flags are derived once at construction and are
preserved by the post-construction operations, with one exception besides
initialisation itself: `WriteProjectFile` (also reached via the backup
write) never changes `update`, `load-source`, `preview`, `resume`,
`reparse` or `retranslate`, and it sets `write` and `read` to true exactly
when it is called with an explicit path while `write` was false (and its
content preconditions pass), leaving them unchanged otherwise;
`UpdateProjectSettings`, `TranslateSubtitles` and `TranslateScene`
preserve all eight flags. -/
theorem C9_mode_flags_stability :
    (∀ (st : ProjectState) (fs : FS) (arg : Option String),
      ((WriteProjectFile st fs arg).1.update_project = st.update_project ∧
        (WriteProjectFile st fs arg).1.load_subtitles = st.load_subtitles ∧
        (WriteProjectFile st fs arg).1.preview = st.preview ∧
        (WriteProjectFile st fs arg).1.resume = st.resume ∧
        (WriteProjectFile st fs arg).1.reparse = st.reparse ∧
        (WriteProjectFile st fs arg).1.retranslate = st.retranslate) ∧
      ((WriteProjectFile st fs arg).1.write_project,
        (WriteProjectFile st fs arg).1.read_project) =
        (if writePreconditionsOk st && (arg.isSome && !st.write_project)
          then (true, true)
          else (st.write_project, st.read_project))) ∧
    (∀ (st : ProjectState) (fs : FS) (S : List (String × String)),
      modeFlagsOf (UpdateProjectSettings st fs S).1 = modeFlagsOf st) ∧
    (∀ (st : ProjectState) (fs : FS) (tev : TranslatorEvents) (run : TranslatorRun),
      modeFlagsOf (TranslateSubtitles st fs tev run).1 = modeFlagsOf st) ∧
    (∀ (st : ProjectState) (fs : FS) (tev : TranslatorEvents) (run : TranslatorRun)
        (n : Nat),
      modeFlagsOf (TranslateScene st fs tev run n).1 = modeFlagsOf st) :=
  ⟨WriteProjectFile_flags, UpdateProjectSettings_flags,
    TranslateSubtitles_flags, TranslateScene_flags⟩
